import Mathlib

/-!
# Verification of the petri-backend tick engine

A shallow embedding of `src/serverGameState.ts` (with its constants from
`stores.ts` and message/entity types from `shared_types.ts`), together with
theorems settling the spec claims about the spatial grid, the placement
search, the per-tick pipeline, visibility extraction, input handling, the
food budget and the cell-key hash.

Modelling conventions:
* JavaScript numbers are modelled exactly: the game-state pipeline is stated
  over `ℚ` (every value the server actually manipulates is a double, hence a
  rational), and the purely numerical facts that involve `Math.sqrt` /
  `Math.log` are stated over `ℝ` by instantiating the same polymorphic
  definitions.  `Math.sqrt` and `Math.log` themselves are passed to the
  definitions as explicit function arguments (`sqrt`, `log`), instantiated
  with `Real.sqrt` / `Real.log` where their actual behaviour matters.
* `Math.random()` is modelled as a stream `rand : ℕ → K` of draws together
  with an explicit index that each operation advances; `crypto.randomUUID()`
  for food is modelled as a fresh-name supply `ℕ → ℕ`.
* JavaScript `Map` / `Set` preserve insertion order, so they are modelled by
  association lists / duplicate-free lists with order-preserving update.
* BigInt cell keys are `ℤ`; uuids are `ℕ`.
-/

namespace Petri

/-! ## Constants (stores.ts, shared_types.ts) -/

/-- Game server ticks per second (`TPS`). -/
def TPS : ℕ := 60

/-- Half-extent of the square world, in pixels (`WORLD_RADIUS`). -/
def WORLD_RADIUS : ℕ := 1000

/-- Radius of a freshly spawned player blob (`INITIAL_PLAYER_RADIUS`). -/
def INITIAL_PLAYER_RADIUS : ℕ := 20

/-- Side length of a spatial-grid cell (`GRID_CELL_SIZE`). -/
def GRID_CELL_SIZE : ℕ := 100

/-- Minimum spawn separation distance (`MIN_SEPERATION_DISTANCE`). -/
def MIN_SEPERATION_DISTANCE : ℕ := 3

/-- Minimum food radius (`MINIMUM_FOOD_RADIUS`). -/
def MINIMUM_FOOD_RADIUS : ℕ := 3

/-- Maximum food radius (`MAXIMUM_FOOD_RADIUS`). -/
def MAXIMUM_FOOD_RADIUS : ℕ := 5

/-- Per-tick cap on cascading food spawn failures
(`MAXIMUM_FOOD_SPAWNING_ATTEMPTS`). -/
def MAXIMUM_FOOD_SPAWNING_ATTEMPTS : ℕ := 10

/-- Cap on player spawn failures (`MAXIMUM_PLAYER_SPAWNING_ATTEMPTS`). -/
def MAXIMUM_PLAYER_SPAWNING_ATTEMPTS : ℕ := 10

/-- Client viewport width in pixels (`CLIENT_WIDTH_PIXELS`). -/
def CLIENT_WIDTH_PIXELS : ℕ := 1920

/-- Client viewport height in pixels (`CLIENT_HEIGHT_PIXELS`). -/
def CLIENT_HEIGHT_PIXELS : ℕ := 1080

/-! ## Bounding boxes (stores.ts) -/

/-- `BoundingBox` from stores.ts. -/
structure Box (K : Type) where
  minX : K
  minY : K
  maxX : K
  maxY : K
deriving DecidableEq, Repr

variable {K : Type} [LinearOrderedField K]

/-- `calculate_aabb` from stores.ts: static box of half-width `wr`,
half-height `hr` around `(x, y)`. -/
def calculate_aabb (x y wr hr : K) : Box K :=
  { minX := x - wr
    minY := y - hr
    maxX := x + wr
    maxY := y + hr }

/-- `sweeping_aabb` from stores.ts: box enclosing the position now and the
position projected one tick (`1 / TPS` seconds) ahead. -/
def sweeping_aabb (x y vx vy wr hr : K) : Box K :=
  let nx := x + vx * (1 / (TPS : K))
  let ny := y + vy * (1 / (TPS : K))
  { minX := min x nx - wr
    minY := min y ny - hr
    maxX := max x nx + wr
    maxY := max y ny + hr }

/-- `ServerGameState._overlaps`: the separating-axis overlap test. -/
def overlapsB (a b : Box K) : Bool :=
  !(decide (a.maxX < b.minX) || decide (a.minX > b.maxX) ||
    decide (a.maxY < b.minY) || decide (a.minY > b.maxY))

/-! ## Cell-key hashing (serverGameState.ts `_hashCell` / `_unhashCell`) -/

/-- `ServerGameState._hashCell`.  BigInts are arbitrary-precision
two's-complement integers, so `BigInt(c) & 0xffffffffn` is exactly
`c.emod (2 ^ 32)` (a value in `[0, 2 ^ 32)`), `x << 32n` on the masked
nonnegative `x` is exactly `x * 2 ^ 32`, and `|` of the two disjoint halves
is their sum. -/
def hashCell (cx cy : ℤ) : ℤ :=
  let x := cx % 4294967296
  let y := cy % 4294967296
  x * 4294967296 + y

/-- `ServerGameState._unhashCell`: recover the two 32-bit halves — on the
nonnegative hash `>> 32n` is floor division by `2 ^ 32` and
`& 0xffffffffn` is `emod (2 ^ 32)` — then sign-extend each half via
`(raw ^ 0x80000000n) - 0x80000000n`. -/
def unhashCell (hash : ℤ) : ℤ × ℤ :=
  let raw_x := (hash / 4294967296) % 4294967296
  let raw_y := hash % 4294967296
  (Int.xor raw_x 2147483648 - 2147483648,
   Int.xor raw_y 2147483648 - 2147483648)

/-- `ServerGameState._calculatePlayerScale`, with `Math.log` passed in as
`log` (the literal `0.03` denotes `3 / 100`). -/
def calculatePlayerScale (log : K → K) (r : K) : K :=
  log r / 100 + 3 / 100

/-- The integer interval `[a, b]` as a list, in increasing order. -/
def intRange (a b : ℤ) : List ℤ :=
  (List.range (b + 1 - a).toNat).map (fun i => a + (i : ℤ))

/-- `ServerGameState._cellsIntersectingAabb`: keys of all the grid cells the
box touches, produced row by row (`cy` outer, `cx` inner) exactly as the
source's nested loops do.  `Math.floor` on an exact rational is
`Rat.floor`. -/
def cellsIntersectingAabb (bounding_box : Box ℚ) : List ℤ :=
  let cx1 := Rat.floor (bounding_box.minX / (GRID_CELL_SIZE : ℚ))
  let cy1 := Rat.floor (bounding_box.minY / (GRID_CELL_SIZE : ℚ))
  let cx2 := Rat.floor (bounding_box.maxX / (GRID_CELL_SIZE : ℚ))
  let cy2 := Rat.floor (bounding_box.maxY / (GRID_CELL_SIZE : ℚ))
  (intRange cy1 cy2).flatMap (fun cy => (intRange cx1 cx2).map (fun cx => hashCell cx cy))

/-! ## Entity handles (shared_types.ts, serverGameState.ts) -/

/-- The `Entity` enum from shared_types.ts. -/
inductive Entity where
  | player_blob
  | food
  | virus
deriving DecidableEq, Repr

/-- Model of the handle strings stored in grid cells.  In the source these
are JavaScript strings: a world-object handle is the bare uuid string and a
player-blob handle is `"uuid:blob_index"`.  Uuids are modelled as naturals
and the two string shapes (no colon / one colon) are the two constructors,
which is exactly the information `split(":")` recovers. -/
inductive HandleStr where
  | bare (uuid : ℕ)
  | indexed (uuid : ℕ) (blob_index : ℕ)
deriving DecidableEq, Repr

/-- `entity_type_uuid_schema` from shared_types.ts: a tagged entity
reference, either a player blob (`EntityType.PLAYER_BLOB`) or a world object
(`EntityType.WORLD_OBJECT`). -/
inductive EntityTypeUuid where
  | player_blob (uuid : ℕ) (blob_index : ℕ)
  | world_object (uuid : ℕ)
deriving DecidableEq, Repr

/-- `stringify_entity_type_uuid`: a player blob becomes `"uuid:blob_index"`
(the `indexed` shape), a world object the bare uuid string. -/
def stringify_entity_type_uuid : EntityTypeUuid → HandleStr
  | .player_blob uuid blob_index => .indexed uuid blob_index
  | .world_object uuid => .bare uuid

/-- `parse_entity_type_uuid`: splitting on `":"` yields a lone uuid (world
object) or a uuid plus blob index (player blob). -/
def parse_entity_type_uuid : HandleStr → EntityTypeUuid
  | .bare uuid => .world_object uuid
  | .indexed uuid blob_index => .player_blob uuid blob_index

/-! ## Ordered maps and sets (JavaScript `Map` / `Set`) -/

/-- `Map.get`. -/
def mapGet {κ α : Type} [DecidableEq κ] : List (κ × α) → κ → Option α
  | [], _ => none
  | (k', v) :: rest, k => if k' = k then some v else mapGet rest k

/-- `Map.set`: overwriting keeps the key's original insertion position, a
new key is appended at the end. -/
def mapSet {κ α : Type} [DecidableEq κ] : List (κ × α) → κ → α → List (κ × α)
  | [], k, v => [(k, v)]
  | (k', v') :: rest, k, v =>
    if k' = k then (k', v) :: rest else (k', v') :: mapSet rest k v

/-- `Map.delete`. -/
def mapDelete {κ α : Type} [DecidableEq κ] : List (κ × α) → κ → List (κ × α)
  | [], _ => []
  | (k', v') :: rest, k => if k' = k then rest else (k', v') :: mapDelete rest k

/-- `Set.add`: appends at the end unless already present. -/
def setAdd {κ : Type} [DecidableEq κ] (s : List κ) (k : κ) : List κ :=
  if k ∈ s then s else s ++ [k]

/-! ## Entity records and the game state (serverGameState.ts) -/

/-- A server `Blob`: position, radius, velocity, current AABB and the set of
grid-cell keys it occupies (`_cells`). -/
structure Blob (K : Type) where
  x : K
  y : K
  r : K
  vx : K
  vy : K
  aabb : Box K
  cells : List ℤ
deriving DecidableEq, Repr

/-- A server `Player`.  (`_player_cache` is initialised to `[]` and never
read by any modelled operation, so it is omitted.) -/
structure Player (K : Type) where
  blobs : List (Blob K)
  client_x : K
  client_y : K
  com_x : K
  com_y : K
  vision_aabb : Box K
  zoom_factor : K
deriving DecidableEq, Repr

/-- A `ServerWorldObject`: the wire fields `{type, x, y, r}` plus the AABB
and cell set. -/
structure ServerWorldObject (K : Type) where
  type : Entity
  x : K
  y : K
  r : K
  aabb : Box K
  cells : List ℤ
deriving DecidableEq, Repr

/-- The mutable fields of `ServerGameState`. -/
structure GameState (K : Type) where
  grid : List (ℤ × List HandleStr)
  players : List (ℕ × Player K)
  world_objects : List (ℕ × ServerWorldObject K)
  spawning_players : List ℕ
  food_amount : K
deriving DecidableEq, Repr

/-- The state built by the `ServerGameState` constructor and field
initialisers: every container empty, `food_amount = 0`. -/
def initialGameState : GameState K :=
  { grid := []
    players := []
    world_objects := []
    spawning_players := []
    food_amount := 0 }

instance : Inhabited (Box K) := ⟨⟨0, 0, 0, 0⟩⟩

instance : Inhabited (Blob K) := ⟨⟨0, 0, 0, 0, 0, default, []⟩⟩

instance : Inhabited (Player K) := ⟨⟨[], 0, 0, 0, 0, default, 0⟩⟩

instance : Inhabited (ServerWorldObject K) := ⟨⟨.food, 0, 0, 0, default, []⟩⟩

/-! ## Placement search (`ServerGameState._randomCollisionFreeLocation`) -/

/-- The successful result of the placement search: position, the cell keys
reported for the entity, and the candidate AABB. -/
structure LocationInfo (K : Type) where
  x : K
  y : K
  cells : List ℤ
  aabb : Box K
deriving DecidableEq, Repr

/-- The coordinate-sampling expression of the search's main path:
`ajusted_world_diameter * Math.random() - ajusted_world_diameter / 2` with
`ajusted_world_diameter = 2 * WORLD_RADIUS - radius`, applied to one random
draw `u`. -/
def sampleCoordinate (radius u : K) : K :=
  let ajusted_world_diameter := 2 * (WORLD_RADIUS : K) - radius
  ajusted_world_diameter * u - ajusted_world_diameter / 2

/-- One handle's collision test inside the cell scan of
`_randomCollisionFreeLocation`: dereference the handle (the source uses
non-null assertions, modelled by `Option.get!`) and test AABB overlap; a
spawning player blob ignores food. -/
def handleCollides (players : List (ℕ × Player ℚ))
    (world_objects : List (ℕ × ServerWorldObject ℚ)) (entity : Entity)
    (aabb : Box ℚ) (h : HandleStr) : Bool :=
  match parse_entity_type_uuid h with
  | .player_blob uuid blob_index =>
    let blob := ((mapGet players uuid).get!).blobs.get! blob_index
    overlapsB blob.aabb aabb
  | .world_object uuid =>
    let world_object := (mapGet world_objects uuid).get!
    -- source: `entity == Entity.PLAYER_BLOB && entity_uuid.type ===
    -- EntityType.WORLD_OBJECT && world_object.type === Entity.FOOD` (the
    -- middle conjunct is always true in this branch)
    if entity = Entity.player_blob ∧ world_object.type = Entity.food then false
    else overlapsB world_object.aabb aabb

/-- The cell scan of one placement attempt: walks the queried cell keys in
order, flagging the last absent (empty) cell seen, and stops at the first
cell containing a colliding handle.  Returns `(collided?, empty-cell flag)`;
flags recorded before the collision persist, as in the source where
`empty_cell_hash` is mutated before `continue collision_free_attempt`. -/
def scanForCollision (players : List (ℕ × Player ℚ))
    (world_objects : List (ℕ × ServerWorldObject ℚ)) (entity : Entity)
    (aabb : Box ℚ) (grid : List (ℤ × List HandleStr)) :
    List ℤ → Option ℤ → Bool × Option ℤ
  | [], empty_cell_hash => (false, empty_cell_hash)
  | cell_hash :: rest, empty_cell_hash =>
    match mapGet grid cell_hash with
    | none => scanForCollision players world_objects entity aabb grid rest (some cell_hash)
    | some cell =>
      if cell.any (handleCollides players world_objects entity aabb) then
        (true, empty_cell_hash)
      else
        scanForCollision players world_objects entity aabb grid rest empty_cell_hash

/-- The attempt loop of `_randomCollisionFreeLocation`.  `fuel` is the
remaining attempt budget (`max_attempts - attempts`); a retarget attempt
rejected at the world border decrements `attempts` again, so it costs no
budget and falls through to a fresh main-path attempt, exactly as the
source's `attempts--; continue` does.  `ri` indexes the `Math.random`
stream. -/
def randomCollisionFreeLocationGo (radius : ℚ) (entity : Entity) (rand : ℕ → ℚ)
    (grid : List (ℤ × List HandleStr)) (players : List (ℕ × Player ℚ))
    (world_objects : List (ℕ × ServerWorldObject ℚ)) :
    ℕ → Option ℤ → Option (Box ℚ) → ℕ → Option (LocationInfo ℚ) × ℕ
  | 0, _, _, ri => (none, ri)
  | fuel + 1, empty_cell_hash, saved_aabb, ri =>
    let mainAttempt : ℕ → Option (LocationInfo ℚ) × ℕ := fun ri =>
      let x := sampleCoordinate radius (rand ri)
      let y := sampleCoordinate radius (rand (ri + 1))
      let aabb := calculate_aabb x y (radius + (MIN_SEPERATION_DISTANCE : ℚ))
        (radius + (MIN_SEPERATION_DISTANCE : ℚ))
      let cell_hashes := cellsIntersectingAabb aabb
      match scanForCollision players world_objects entity aabb grid cell_hashes none with
      | (true, empty') =>
        randomCollisionFreeLocationGo radius entity rand grid players world_objects
          fuel empty' (some aabb) (ri + 2)
      | (false, _) => (some ⟨x, y, cell_hashes, aabb⟩, ri + 2)
    match empty_cell_hash with
    | some h =>
      -- retarget into the flagged empty cell: note the source adds the raw
      -- cell *coordinate* (not coordinate × GRID_CELL_SIZE)
      let cell := unhashCell h
      let x := (cell.1 : ℚ) +
        rand ri * ((GRID_CELL_SIZE : ℚ) - (MIN_SEPERATION_DISTANCE : ℚ)) +
        (MIN_SEPERATION_DISTANCE : ℚ)
      let y := (cell.2 : ℚ) +
        rand (ri + 1) * ((GRID_CELL_SIZE : ℚ) - (MIN_SEPERATION_DISTANCE : ℚ)) +
        (MIN_SEPERATION_DISTANCE : ℚ)
      if |x| > (WORLD_RADIUS : ℚ) - radius ∨ |y| > (WORLD_RADIUS : ℚ) - radius then
        mainAttempt (ri + 2)
      else
        -- returns immediately: no collision check, the *saved* aabb of the
        -- previous main-path attempt (`aabb!`), and only the flagged cell
        (some ⟨x, y, [h], saved_aabb.get!⟩, ri + 2)
    | none => mainAttempt ri

/-- `ServerGameState._randomCollisionFreeLocation`. -/
def randomCollisionFreeLocation (radius : ℚ) (max_attempts : ℕ) (entity : Entity)
    (s : GameState ℚ) (rand : ℕ → ℚ) (ri : ℕ) : Option (LocationInfo ℚ) × ℕ :=
  randomCollisionFreeLocationGo radius entity rand s.grid s.players s.world_objects
    max_attempts none none ri

/-! ## Visibility extraction (`ServerGameState._visibleEntities`) -/

/-- `other_blob_schema`: the wire record for another player's blob. -/
structure OtherBlobData (K : Type) where
  x : K
  y : K
  r : K
  vx : K
  vy : K
deriving DecidableEq, Repr

/-- `world_object_schema`: the wire record for a food or virus. -/
structure WorldObjectData (K : Type) where
  type : Entity
  x : K
  y : K
  r : K
deriving DecidableEq, Repr

/-- The four accumulator lists of `_visibleEntities` (uuids and data are
pushed pairwise) plus the `player_metadata` set. -/
structure VisAcc (K : Type) where
  ob_uuids : List ℕ
  ob_data : List (OtherBlobData K)
  wo_uuids : List ℕ
  wo_data : List (WorldObjectData K)
  meta : List ℕ
deriving DecidableEq, Repr

/-- Processing of one handle inside the cell sweep of `_visibleEntities`,
with the source's guard order: dedup by uuid, self-exclusion, player lookup,
`player_metadata.add` before the blob-undefined check, then the vision
overlap filter. -/
def visitHandle (players : List (ℕ × Player ℚ))
    (world_objects : List (ℕ × ServerWorldObject ℚ)) (player_uuid : ℕ)
    (vision_aabb : Box ℚ) (acc : VisAcc ℚ) (h : HandleStr) : VisAcc ℚ :=
  match parse_entity_type_uuid h with
  | .player_blob uuid blob_index =>
    if uuid ∈ acc.ob_uuids then acc
    else if uuid = player_uuid then acc
    else
      match mapGet players uuid with
      | none => acc
      | some other_player =>
        let acc := { acc with meta := setAdd acc.meta uuid }
        match other_player.blobs.get? blob_index with
        | none => acc
        | some blob =>
          if overlapsB vision_aabb blob.aabb then
            { acc with
              ob_uuids := acc.ob_uuids ++ [uuid]
              ob_data := acc.ob_data ++ [⟨blob.x, blob.y, blob.r, blob.vx, blob.vy⟩] }
          else acc
  | .world_object uuid =>
    if uuid ∈ acc.wo_uuids then acc
    else
      match mapGet world_objects uuid with
      | none => acc
      | some world_object =>
        if overlapsB vision_aabb world_object.aabb then
          { acc with
            wo_uuids := acc.wo_uuids ++ [uuid]
            wo_data := acc.wo_data ++
              [⟨world_object.type, world_object.x, world_object.y, world_object.r⟩] }
        else acc

/-- One vision cell's sweep: `for ... of this.grid.get(cell_hash) ?? []`. -/
def visitCell (players : List (ℕ × Player ℚ))
    (world_objects : List (ℕ × ServerWorldObject ℚ)) (player_uuid : ℕ)
    (vision_aabb : Box ℚ) (grid : List (ℤ × List HandleStr)) (acc : VisAcc ℚ)
    (cell_hash : ℤ) : VisAcc ℚ :=
  ((mapGet grid cell_hash).getD []).foldl
    (visitHandle players world_objects player_uuid vision_aabb) acc

/-- The result of `_visibleEntities`.  Output keys are the strings the
source pushes: for other blobs it pushes the set elements of
`visible_other_blobs_uuid`, i.e. the *bare* player uuid strings. -/
structure VisibleEntities (K : Type) where
  other_blobs : List (HandleStr × OtherBlobData K)
  world_objects : List (HandleStr × WorldObjectData K)
  player_metadata : List ℕ
deriving DecidableEq, Repr

/-- `ServerGameState._visibleEntities`. -/
def visibleEntities (s : GameState ℚ) (player_uuid : ℕ) : VisibleEntities ℚ :=
  let player := (mapGet s.players player_uuid).get!
  let vision_cells := cellsIntersectingAabb player.vision_aabb
  let acc := vision_cells.foldl
    (visitCell s.players s.world_objects player_uuid player.vision_aabb s.grid)
    ⟨[], [], [], [], []⟩
  { other_blobs := (acc.ob_uuids.zip acc.ob_data).map (fun p => (HandleStr.bare p.1, p.2))
    world_objects := (acc.wo_uuids.zip acc.wo_data).map (fun p => (HandleStr.bare p.1, p.2))
    player_metadata := acc.meta }

/-! ## Outbound messages (shared_types.ts response schemas) -/

/-- `self_blobs_schema` entry. -/
structure SelfBlobData (K : Type) where
  x : K
  y : K
  r : K
deriving DecidableEq, Repr

/-- The `data` payload shared by `tick_update_response_schema` and
`internal_join_game_response_schema`. -/
structure TickUpdateData (K : Type) where
  com_x : K
  com_y : K
  self_blobs : List (SelfBlobData K)
  zoom_factor : K
  other_blobs : List (HandleStr × OtherBlobData K)
  world_objects : List (HandleStr × WorldObjectData K)
  world_radius : K
deriving DecidableEq, Repr

/-- A message published to `player:{uuid}`. -/
inductive ServerMsg (K : Type) where
  | join_game (data : TickUpdateData K)
  | tick_update (data : TickUpdateData K)
deriving DecidableEq, Repr

/-! ## Player spawning (`ServerGameState._spawnPlayer`) -/

/-- The body of `_spawnPlayer`'s loop over `spawning_players`: each queued
uuid runs the placement search with `max_attempts = 5` (a literal in the
source); on failure the player stays queued, on success the player record is
inserted (note: the source inserts nothing into the grid here), visibility
is gathered for the join message, the uuid leaves the queue and
`food_amount` grows by 100. -/
def spawnPlayerLoop (log : ℚ → ℚ) (rand : ℕ → ℚ) :
    List ℕ → GameState ℚ → List (ℕ × ServerMsg ℚ) → ℕ →
    GameState ℚ × List (ℕ × ServerMsg ℚ) × ℕ
  | [], s, msgs, ri => (s, msgs, ri)
  | player_uuid :: rest, s, msgs, ri =>
    match randomCollisionFreeLocation (INITIAL_PLAYER_RADIUS : ℚ) 5 .player_blob s rand ri with
    | (none, ri') => spawnPlayerLoop log rand rest s msgs ri'
    | (some starting_location, ri') =>
      let zoom_factor := calculatePlayerScale log (INITIAL_PLAYER_RADIUS : ℚ)
      let vision_aabb := calculate_aabb starting_location.x starting_location.y
        (((CLIENT_WIDTH_PIXELS : ℚ) / 2) * zoom_factor)
        (((CLIENT_HEIGHT_PIXELS : ℚ) / 2) * zoom_factor)
      let player : Player ℚ :=
        { blobs := [{ x := starting_location.x
                      y := starting_location.y
                      cells := starting_location.cells
                      aabb := starting_location.aabb
                      r := (INITIAL_PLAYER_RADIUS : ℚ)
                      vx := 0
                      vy := 0 }]
          client_x := (CLIENT_WIDTH_PIXELS : ℚ) / 2
          client_y := (CLIENT_HEIGHT_PIXELS : ℚ) / 2
          com_x := starting_location.x
          com_y := starting_location.y
          vision_aabb := vision_aabb
          zoom_factor := zoom_factor }
      let s1 := { s with players := mapSet s.players player_uuid player }
      let visible_entries := visibleEntities s1 player_uuid
      let s2 := { s1 with
        spawning_players := s1.spawning_players.erase player_uuid
        food_amount := s1.food_amount + 100 }
      let msg : ServerMsg ℚ := .join_game
        { com_x := starting_location.x
          com_y := starting_location.y
          self_blobs := [⟨starting_location.x, starting_location.y, (INITIAL_PLAYER_RADIUS : ℚ)⟩]
          zoom_factor := zoom_factor
          other_blobs := visible_entries.other_blobs
          world_objects := visible_entries.world_objects
          world_radius := (WORLD_RADIUS : ℚ) }
      spawnPlayerLoop log rand rest s2 (msgs ++ [(player_uuid, msg)]) ri'

/-- `ServerGameState._spawnPlayer`. -/
def spawnPlayer (log : ℚ → ℚ) (rand : ℕ → ℚ) (s : GameState ℚ) (ri : ℕ) :
    GameState ℚ × List (ℕ × ServerMsg ℚ) × ℕ :=
  spawnPlayerLoop log rand s.spawning_players s [] ri

/-! ## Food spawning (`ServerGameState._spawnFood`) -/

/-- The while loop of `_spawnFood`.  `fuel` bounds the iteration count (the
JavaScript loop is bounded by `total` shrinking by at least
`MINIMUM_FOOD_RADIUS` per iteration whenever the draws lie in `[0, 1)`);
both source guards are checked each iteration.  Returns the state, the
final `failures` counter, and the advanced random / fresh-uuid indices. -/
def spawnFoodLoop (rand : ℕ → ℚ) (food_uuid : ℕ → ℕ) :
    ℕ → ℚ → ℕ → GameState ℚ → ℕ → ℕ → GameState ℚ × ℕ × ℕ × ℕ
  | 0, _, failures, s, ri, fi => (s, failures, ri, fi)
  | fuel + 1, total_food_spawning_radius, failures, s, ri, fi =>
    if total_food_spawning_radius > (MINIMUM_FOOD_RADIUS : ℚ) ∧
        failures < MAXIMUM_FOOD_SPAWNING_ATTEMPTS then
      let food_radius := (MINIMUM_FOOD_RADIUS : ℚ) +
        rand ri * ((MAXIMUM_FOOD_RADIUS : ℚ) - (MINIMUM_FOOD_RADIUS : ℚ))
      let total' := total_food_spawning_radius - food_radius
      match randomCollisionFreeLocation food_radius 3 .food s rand (ri + 1) with
      | (none, ri') => spawnFoodLoop rand food_uuid fuel total' (failures + 1) s ri' fi
      | (some loc, ri') =>
        let uuid := food_uuid fi
        let wobj : ServerWorldObject ℚ :=
          { x := loc.x, y := loc.y, cells := loc.cells, aabb := loc.aabb
            r := food_radius, type := .food }
        let grid' := loc.cells.foldl (fun g cell_hash =>
            match mapGet g cell_hash with
            | none => mapSet g cell_hash [HandleStr.bare uuid]
            | some cell => mapSet g cell_hash (setAdd cell (.bare uuid))) s.grid
        let s' := { s with world_objects := mapSet s.world_objects uuid wobj, grid := grid' }
        spawnFoodLoop rand food_uuid fuel total' failures s' ri' (fi + 1)
    else (s, failures, ri, fi)

/-- `ServerGameState._spawnFood`: convert part of the food budget
(`food_amount -= food_amount - Math.log(food_amount + 1)`, leaving
`log (food_amount + 1)` behind) and run the spawn loop on the converted
amount. -/
def spawnFood (log : ℚ → ℚ) (rand : ℕ → ℚ) (food_uuid : ℕ → ℕ) (fuel : ℕ)
    (s : GameState ℚ) (ri fi : ℕ) : GameState ℚ × ℕ × ℕ × ℕ :=
  let total_food_spawning_radius := s.food_amount - log (s.food_amount + 1)
  let s0 := { s with food_amount := s.food_amount - total_food_spawning_radius }
  spawnFoodLoop rand food_uuid fuel total_food_spawning_radius 0 s0 ri fi

/-! ## Input handling (`ServerGameState._playerUpdatePositionListener`) -/

/-- The effect of one parsed `player:update_position` message: an unknown
uuid returns the state unchanged; a known player's stored target becomes
`((x - CLIENT_WIDTH_PIXELS / 2) * zoom_factor,
(y - CLIENT_HEIGHT_PIXELS / 2) * zoom_factor)`. -/
def playerUpdatePosition (s : GameState K) (uuid : ℕ) (x y : K) : GameState K :=
  match mapGet s.players uuid with
  | none => s
  | some player =>
    let player' := { player with
      client_x := (x - (CLIENT_WIDTH_PIXELS : K) / 2) * player.zoom_factor
      client_y := (y - (CLIENT_HEIGHT_PIXELS : K) / 2) * player.zoom_factor }
    { s with players := mapSet s.players uuid player' }

/-! ## Motion integration (`ServerGameState._updatePlayersLocations`) -/

/-- The per-blob position update of `_updatePlayersLocations`: pull toward
`(com_x + client_x, com_y - client_y)`, rescale the step to length `r` when
the squared distance exceeds `r²` (`n = r / Math.sqrt(m²)`), advance by
`dx * dt * TPS` and clamp to the world border, then refresh the swept
AABB. -/
def moveBlob (sqrt : K → K) (com_x com_y client_x client_y dt : K) (blob : Blob K) :
    Blob K :=
  let blob_world_x := com_x + client_x
  let blob_world_y := com_y - client_y
  let dx := blob_world_x - blob.x
  let dy := blob_world_y - blob.y
  let mass := blob.r * blob.r
  let magnitude_sq := dx * dx + dy * dy
  let dx' := if magnitude_sq ≠ 0 ∧ magnitude_sq > mass then
      dx * (blob.r / sqrt magnitude_sq) else dx
  let dy' := if magnitude_sq ≠ 0 ∧ magnitude_sq > mass then
      dy * (blob.r / sqrt magnitude_sq) else dy
  let x := max (min (blob.x + dx' * dt * (TPS : K)) ((WORLD_RADIUS : K) - blob.r))
    (-(WORLD_RADIUS : K) + blob.r)
  let y := max (min (blob.y + dy' * dt * (TPS : K)) ((WORLD_RADIUS : K) - blob.r))
    (-(WORLD_RADIUS : K) + blob.r)
  { blob with x := x, y := y, aabb := sweeping_aabb x y blob.vx blob.vy blob.r blob.r }

/-- The deletion half of the cell reconciliation: for each cell left behind,
the source runs `this.grid.get(c)!.delete(blob_uuid)` — if the cell is
absent from the grid this dereferences `undefined` and throws, modelled as
`none`. -/
def deleteHandleFromCells (blob_uuid : HandleStr) :
    List (ℤ × List HandleStr) → List ℤ → Option (List (ℤ × List HandleStr))
  | grid, [] => some grid
  | grid, c :: rest =>
    match mapGet grid c with
    | none => none
    | some old_cell =>
      let old_cell' := old_cell.erase blob_uuid
      let grid' := if old_cell'.isEmpty then mapDelete grid c else mapSet grid c old_cell'
      deleteHandleFromCells blob_uuid grid' rest

/-- The insertion half of the cell reconciliation: create absent cells, then
add the handle. -/
def insertHandleIntoCells (blob_uuid : HandleStr) (grid : List (ℤ × List HandleStr))
    (cells : List ℤ) : List (ℤ × List HandleStr) :=
  cells.foldl (fun g c =>
    match mapGet g c with
    | none => mapSet g c [blob_uuid]
    | some cell => mapSet g c (setAdd cell blob_uuid)) grid

/-- The cell-membership reconciliation for one blob: sizes are compared, the
handle is removed from `old \ new` (dropping emptied cells), and — unless
nothing changed — inserted into `new \ old`, the blob keeping `new` as its
cell set. -/
def updateBlobCells (grid : List (ℤ × List HandleStr)) (blob_uuid : HandleStr)
    (old_cells new_cells : List ℤ) : Option (List (ℤ × List HandleStr) × List ℤ) :=
  let same_size := old_cells.length = new_cells.length
  let diff_out := old_cells.filter (fun c => decide (c ∉ new_cells))
  let unchanged := same_size ∧ diff_out = []
  match deleteHandleFromCells blob_uuid grid diff_out with
  | none => none
  | some grid1 =>
    if unchanged then some (grid1, old_cells)
    else
      let diff_in := new_cells.filter (fun c => decide (c ∉ old_cells))
      some (insertHandleIntoCells blob_uuid grid1 diff_in, new_cells)

/-- The blob loop of `_updatePlayersLocations` for one player: move each
blob, accumulate `radius`, `total_mass`, `total_x`, `total_y` from the
updated positions, and reconcile each blob's grid cells. -/
def updateBlobsGo (sqrt : ℚ → ℚ) (dt : ℚ) (com_x com_y client_x client_y : ℚ)
    (player_uuid : ℕ) :
    List (Blob ℚ) → ℕ → List (ℤ × List HandleStr) → ℚ × ℚ × ℚ × ℚ →
    Option (List (Blob ℚ) × List (ℤ × List HandleStr) × (ℚ × ℚ × ℚ × ℚ))
  | [], _, grid, acc => some ([], grid, acc)
  | blob :: rest, blob_index, grid, (radius, total_mass, total_x, total_y) =>
    let b1 := moveBlob sqrt com_x com_y client_x client_y dt blob
    let mass := blob.r * blob.r
    let acc' := (radius + blob.r, total_mass + mass,
                 total_x + b1.x * mass, total_y + b1.y * mass)
    let blob_cells := cellsIntersectingAabb b1.aabb
    let blob_uuid := stringify_entity_type_uuid (.player_blob player_uuid blob_index)
    match updateBlobCells grid blob_uuid blob.cells blob_cells with
    | none => none
    | some (grid', cells') =>
      match updateBlobsGo sqrt dt com_x com_y client_x client_y player_uuid
          rest (blob_index + 1) grid' acc' with
      | none => none
      | some (blobs', grid'', acc'') => some ({ b1 with cells := cells' } :: blobs', grid'', acc'')

/-- The player loop of `_updatePlayersLocations`: after the blob loop,
recompute `zoom_factor` from the summed radius, the centre of mass from the
mass-weighted sums, and the vision AABB. -/
def updatePlayersLocationsGo (sqrt log : ℚ → ℚ) (dt : ℚ) :
    List (ℕ × Player ℚ) → List (ℤ × List HandleStr) →
    Option (List (ℕ × Player ℚ) × List (ℤ × List HandleStr))
  | [], grid => some ([], grid)
  | (player_uuid, player) :: rest, grid =>
    match updateBlobsGo sqrt dt player.com_x player.com_y player.client_x player.client_y
        player_uuid player.blobs 0 grid (0, 0, 0, 0) with
    | none => none
    | some (blobs', grid', (radius, total_mass, total_x, total_y)) =>
      let zoom_factor := calculatePlayerScale log radius
      let com_x := total_x / total_mass
      let com_y := total_y / total_mass
      let vision_aabb := calculate_aabb com_x com_y
        (((CLIENT_WIDTH_PIXELS : ℚ) / 2) * zoom_factor)
        (((CLIENT_HEIGHT_PIXELS : ℚ) / 2) * zoom_factor)
      let player' := { player with
        blobs := blobs', zoom_factor := zoom_factor
        com_x := com_x, com_y := com_y, vision_aabb := vision_aabb }
      match updatePlayersLocationsGo sqrt log dt rest grid' with
      | none => none
      | some (players', grid'') => some ((player_uuid, player') :: players', grid'')

/-- `ServerGameState._updatePlayersLocations`. -/
def updatePlayersLocations (sqrt log : ℚ → ℚ) (dt : ℚ) (s : GameState ℚ) :
    Option (GameState ℚ) :=
  match updatePlayersLocationsGo sqrt log dt s.players s.grid with
  | none => none
  | some (players', grid') => some { s with players := players', grid := grid' }

/-! ## Broadcast and the tick (`_broadcastTickUpdate`, `_tick`) -/

/-- `ServerGameState._broadcastTickUpdate`: one `tick_update` message per
player, read-only on the state. -/
def broadcastTickUpdate (s : GameState ℚ) : List (ℕ × ServerMsg ℚ) :=
  s.players.map (fun p =>
    let v := visibleEntities s p.1
    (p.1, ServerMsg.tick_update
      { com_x := p.2.com_x
        com_y := p.2.com_y
        self_blobs := p.2.blobs.map (fun b => ⟨b.x, b.y, b.r⟩)
        zoom_factor := p.2.zoom_factor
        other_blobs := v.other_blobs
        world_objects := v.world_objects
        world_radius := (WORLD_RADIUS : ℚ) }))

/-- `ServerGameState._tick`: spawn food, then integrate and reindex
(`_updatePlayersLocations`), then `Promise.all([_spawnPlayer(),
_broadcastTickUpdate()])` — whose synchronous bodies run in that order, so
queued players are inserted after integration and before the broadcast is
assembled.  Returns the new state and the messages published (join messages
first), or `none` if the cell reconciliation dereferenced a missing
cell. -/
def tick (sqrt log : ℚ → ℚ) (rand : ℕ → ℚ) (food_uuid : ℕ → ℕ) (food_fuel : ℕ)
    (dt : ℚ) (s : GameState ℚ) (ri fi : ℕ) :
    Option (GameState ℚ × List (ℕ × ServerMsg ℚ)) :=
  let fr := spawnFood log rand food_uuid food_fuel s ri fi
  match updatePlayersLocations sqrt log dt fr.1 with
  | none => none
  | some s2 =>
    let pr := spawnPlayer log rand s2 fr.2.2.1
    some (pr.1, pr.2.1 ++ broadcastTickUpdate pr.1)

/-- Modelled from the spec: the per-tick pipeline order asserted in §2 and
§5 — spawn food, then spawn queued players, then integrate motion and
reindex, then gather visibility and broadcast.  Built from the same embedded
phases as `tick`; only the order of the player-spawning and integration
phases differs. -/
def tickSpecOrder (sqrt log : ℚ → ℚ) (rand : ℕ → ℚ) (food_uuid : ℕ → ℕ)
    (food_fuel : ℕ) (dt : ℚ) (s : GameState ℚ) (ri fi : ℕ) :
    Option (GameState ℚ × List (ℕ × ServerMsg ℚ)) :=
  let fr := spawnFood log rand food_uuid food_fuel s ri fi
  let pr := spawnPlayer log rand fr.1 fr.2.2.1
  match updatePlayersLocations sqrt log dt pr.1 with
  | none => none
  | some s3 => some (s3, pr.2.1 ++ broadcastTickUpdate s3)

/-! ## Derived notions used by the theorems -/

/-- The food budget after `_spawnFood`'s conversion step
(`food_amount -= food_amount - Math.log(food_amount + 1)`): written exactly
as the source computes it. -/
def spawnFoodBudgetAfter (log : K → K) (food_amount : K) : K :=
  food_amount - (food_amount - log (food_amount + 1))

/-- The cell set the state records for the entity a handle refers to
(`none` when the handle is stale). -/
def entityCells (s : GameState ℚ) (h : HandleStr) : Option (List ℤ) :=
  match parse_entity_type_uuid h with
  | .player_blob uuid blob_index =>
    (mapGet s.players uuid).bind (fun p => (p.blobs.get? blob_index).map (·.cells))
  | .world_object uuid => (mapGet s.world_objects uuid).map (·.cells)

/-- The bidirectional grid-membership invariant of the spec: a handle
appears in a grid cell iff that cell key is listed in the entity's cell
set. -/
def gridConsistentB (s : GameState ℚ) : Bool :=
  s.grid.all (fun ch => ch.2.all (fun h =>
    match entityCells s h with
    | none => false
    | some cs => cs.contains ch.1)) &&
  s.players.all (fun up => (List.range up.2.blobs.length).all (fun i =>
    (((up.2.blobs.get? i).getD default).cells).all (fun c =>
      ((mapGet s.grid c).getD []).contains (.indexed up.1 i)))) &&
  s.world_objects.all (fun uo => uo.2.cells.all (fun c =>
    ((mapGet s.grid c).getD []).contains (.bare uo.1)))

instance : Inhabited (GameState K) := ⟨initialGameState⟩

/-! ## Concrete scenario data

Interpretations of the opaque effect functions (`Math.log`, `Math.sqrt`,
`crypto.randomUUID`) for concrete evaluations whose stated outcome does not
depend on the chosen interpretation, plus the random streams and start
states the per-claim evaluations run on. -/

/-- A concrete stand-in interpretation of `Math.log`. -/
def anyLog : ℚ → ℚ := fun _ => 0

/-- A concrete stand-in interpretation of `Math.sqrt`. -/
def anySqrt : ℚ → ℚ := fun _ => 0

/-- A concrete fresh-uuid supply for spawned food. -/
def anyFoodUuid : ℕ → ℕ := fun n => 1000 + n

/-- A random stream whose every draw is `52 / 99`: the placement search's
main path then samples the coordinate `1980 * 52/99 - 990 = 50`. -/
def randSpawn50 : ℕ → ℚ := fun _ => 52 / 99

/-- Random stream for the sampling-bound scenario: the first draw `999/1000`
puts the sampled x at `1980 * 999/1000 - 990 = 988.02`; later draws sample
`50`. -/
def randC2 : ℕ → ℚ := fun n => if n = 0 then 999 / 1000 else 52 / 99

/-- Random stream for the retargeting scenario: the first attempt samples
`(95, 50)`, the retarget attempt then draws `0` twice. -/
def randRetarget : ℕ → ℚ := fun n =>
  if n = 0 then 1093 / 1996 else if n = 1 then 1048 / 1996 else 0

/-- Random stream for the attempt-budget scenario: the first five attempts
(ten draws) sample `(150, 150)`, later attempts sample `(600, 600)`. -/
def randBlocked : ℕ → ℚ := fun n => if n < 10 then 19 / 33 else 53 / 66

/-- A state whose only content is player uuid `7` waiting in the spawn
queue. -/
def spawnQueuedState : GameState ℚ :=
  { grid := []
    players := []
    world_objects := []
    spawning_players := [7]
    food_amount := 0 }

/-- A virus (uuid `1`) whose AABB covers `[100, 180] × [10, 90]`, indexed in
its single grid cell `(1, 0)`. -/
def retargetVirus : ServerWorldObject ℚ :=
  { type := .virus, x := 140, y := 50, r := 40
    aabb := ⟨100, 10, 180, 90⟩, cells := [hashCell 1 0] }

/-- State for the retargeting scenario: just `retargetVirus` and its grid
cell. -/
def retargetState : GameState ℚ :=
  { grid := [(hashCell 1 0, [.bare 1])]
    players := []
    world_objects := [(1, retargetVirus)]
    spawning_players := []
    food_amount := 0 }

/-- A large virus (uuid `1`) covering `[0, 300]²`, indexed in all sixteen
cells it touches. -/
def blockedVirus : ServerWorldObject ℚ :=
  { type := .virus, x := 150, y := 150, r := 150
    aabb := ⟨0, 0, 300, 300⟩, cells := cellsIntersectingAabb ⟨0, 0, 300, 300⟩ }

/-- State for the attempt-budget scenario: `blockedVirus` occupies its cells
and player uuid `7` waits in the spawn queue. -/
def blockedState : GameState ℚ :=
  { grid := (cellsIntersectingAabb ⟨0, 0, 300, 300⟩).map (fun c => (c, [HandleStr.bare 1]))
    players := []
    world_objects := [(1, blockedVirus)]
    spawning_players := [7]
    food_amount := 0 }

/-- The observing player of the visibility scenario: one blob at
`(150, 150)`, vision AABB `[50, 250]²`. -/
def visionSelf : Player ℚ :=
  { blobs := [⟨150, 150, 20, 0, 0, ⟨130, 130, 170, 170⟩, [hashCell 1 1]⟩]
    client_x := 960, client_y := 540
    com_x := 150, com_y := 150
    vision_aabb := ⟨50, 50, 250, 250⟩
    zoom_factor := 5 / 48 }

/-- The observed player of the visibility scenario: two blobs at
`(160, 150)` and `(180, 150)`, both with AABBs inside the observer's vision
AABB. -/
def visionOther : Player ℚ :=
  { blobs := [⟨160, 150, 5, 0, 0, ⟨155, 145, 165, 155⟩, [hashCell 1 1]⟩,
              ⟨180, 150, 5, 0, 0, ⟨175, 145, 185, 155⟩, [hashCell 1 1]⟩]
    client_x := 960, client_y := 540
    com_x := 170, com_y := 150
    vision_aabb := ⟨70, 70, 270, 270⟩
    zoom_factor := 5 / 48 }

/-- State for the visibility scenario: players `1` (observer) and `2`, all
three blob handles indexed in cell `(1, 1)`. -/
def visionState : GameState ℚ :=
  { grid := [(hashCell 1 1, [.indexed 1 0, .indexed 2 0, .indexed 2 1])]
    players := [(1, visionSelf), (2, visionOther)]
    world_objects := []
    spawning_players := []
    food_amount := 0 }

/-- A player with `zoom_factor = 2` for the update-position evaluation. -/
def updatePosPlayer : Player ℚ :=
  { blobs := []
    client_x := 0, client_y := 0
    com_x := 0, com_y := 0
    vision_aabb := ⟨0, 0, 0, 0⟩
    zoom_factor := 2 }

/-- State for the update-position evaluation: only player uuid `1`. -/
def updatePosState : GameState ℚ :=
  { grid := []
    players := [(1, updatePosPlayer)]
    world_objects := []
    spawning_players := []
    food_amount := 0 }

/-- The blob `_spawnPlayer` builds at the origin: radius
`INITIAL_PLAYER_RADIUS`, zero velocity, the inflated placement AABB, its
spawn cell. -/
def idleSpawnBlob : Blob ℝ :=
  { x := 0, y := 0, r := (INITIAL_PLAYER_RADIUS : ℝ), vx := 0, vy := 0
    aabb := ⟨-23, -23, 23, 23⟩, cells := [hashCell 0 0] }

/-- The (state, messages) pair produced by one tick on `spawnQueuedState`
with `dt = 0` and the `randSpawn50` stream. -/
def spawnTickResult : GameState ℚ × List (ℕ × ServerMsg ℚ) :=
  (tick anySqrt anyLog randSpawn50 anyFoodUuid 5 0 spawnQueuedState 0 0).get!

/-- Soundness property of one entry of `_visibleEntities`' `other_blobs`
output: the keyed player differs from the observer, and the carried data is
that of one of that player's blobs whose AABB overlaps the observer's
vision AABB. -/
def OtherBlobEntryOK (s : GameState ℚ) (player_uuid : ℕ) (vision_aabb : Box ℚ)
    (u : ℕ) (d : OtherBlobData ℚ) : Prop :=
  u ≠ player_uuid ∧
  ∃ op, mapGet s.players u = some op ∧
    ∃ i blob, op.blobs.get? i = some blob ∧
      overlapsB vision_aabb blob.aabb = true ∧
      d = ⟨blob.x, blob.y, blob.r, blob.vx, blob.vy⟩

/-- Invariant of the `_visibleEntities` accumulator: the uuid and data
lists stay aligned, the uuid list stays duplicate-free, and every collected
pair satisfies `OtherBlobEntryOK`. -/
def VisAccOK (s : GameState ℚ) (player_uuid : ℕ) (vision_aabb : Box ℚ)
    (acc : VisAcc ℚ) : Prop :=
  acc.ob_uuids.length = acc.ob_data.length ∧
  acc.ob_uuids.Nodup ∧
  ∀ pr ∈ acc.ob_uuids.zip acc.ob_data,
    OtherBlobEntryOK s player_uuid vision_aabb pr.1 pr.2

/-! ## General helper lemmas -/

/-- A property preserved by each fold step holds of the fold. -/
theorem foldl_preserves {α β : Type} {P : α → Prop} {f : α → β → α}
    (hstep : ∀ a b, P a → P (f a b)) :
    ∀ (l : List β) (a : α), P a → P (l.foldl f a)
  | [], _, ha => ha
  | b :: l, a, ha => foldl_preserves hstep l (f a b) (hstep a b ha)

/-- A successful `mapGet` exhibits membership of the association list. -/
theorem mapGet_mem {κ α : Type} [DecidableEq κ] (m : List (κ × α)) (k : κ) (v : α)
    (h : mapGet m k = some v) : (k, v) ∈ m := by
  induction m with
  | nil => simp [mapGet] at h
  | cons p rest ih =>
    obtain ⟨k', v'⟩ := p
    rw [mapGet] at h
    split at h
    · rename_i heq
      subst heq
      injection h with hv
      subst hv
      exact List.mem_cons_self _ _
    · exact List.mem_cons_of_mem _ (ih h)

/-- Looking up the key just set returns the new value. -/
theorem mapGet_mapSet_self {κ α : Type} [DecidableEq κ] (m : List (κ × α)) (k : κ) (v : α) :
    mapGet (mapSet m k v) k = some v := by
  induction m with
  | nil => simp [mapSet, mapGet]
  | cons p rest ih =>
    obtain ⟨k', v'⟩ := p
    by_cases h : k' = k
    · subst h
      simp [mapSet, mapGet]
    · simp [mapSet, mapGet, h, ih]

/-- Setting one key leaves every other key's lookup unchanged. -/
theorem mapGet_mapSet_ne {κ α : Type} [DecidableEq κ] (m : List (κ × α)) (k k' : κ) (v : α)
    (h : k' ≠ k) : mapGet (mapSet m k v) k' = mapGet m k' := by
  induction m with
  | nil => simp [mapSet, mapGet, Ne.symm h]
  | cons p rest ih =>
    obtain ⟨k'', v''⟩ := p
    by_cases h2 : k'' = k
    · subst h2
      simp [mapSet, mapGet, Ne.symm h]
    · by_cases h3 : k'' = k'
      · subst h3
        simp [mapSet, mapGet, h2]
      · simp [mapSet, mapGet, h2, h3, ih]

/-- Clamping with `max (min v (W - r)) (-W + r)` lands inside `±(W - r)`
whenever `r ≤ W`. -/
theorem abs_clamp_le {K : Type} [LinearOrderedField K] (v r W : K) (h : r ≤ W) :
    |max (min v (W - r)) (-W + r)| ≤ W - r := by
  rw [abs_le]
  constructor
  · have hneg : -(W - r) = -W + r := by ring
    rw [hneg]
    exact le_max_right _ _
  · exact max_le (min_le_right _ _) (by linarith)

/-- XOR with the top bit of an `(i+1)`-bit value adds or clears `2 ^ i`. -/
theorem xor_top_bit {i n : ℕ} (h : n < 2 ^ (i + 1)) :
    n ^^^ 2 ^ i = if n < 2 ^ i then n + 2 ^ i else n - 2 ^ i := by
  rcases Nat.lt_or_ge n (2 ^ i) with hlt | hge
  · rw [if_pos hlt]
    apply Nat.eq_of_testBit_eq
    intro j
    rw [Nat.testBit_xor]
    have hrw : n + 2 ^ i = 2 ^ i * 1 + n := by ring
    rw [hrw, Nat.testBit_mul_pow_two_add 1 hlt]
    rcases lt_trichotomy j i with hj | hj | hj
    · have hd : decide (i = j) = false := decide_eq_false (by omega)
      simp [Nat.testBit_two_pow, hd, hj]
    · subst hj
      simp [Nat.testBit_two_pow, Nat.testBit_eq_false_of_lt hlt]
    · have hd : decide (i = j) = false := decide_eq_false (by omega)
      have h1 : Nat.testBit n j = false :=
        Nat.testBit_eq_false_of_lt
          (lt_of_lt_of_le hlt (Nat.pow_le_pow_right (by norm_num) (le_of_lt hj)))
      have h2 : Nat.testBit 1 (j - i) = false :=
        Nat.testBit_eq_false_of_lt (Nat.one_lt_two_pow (by omega))
      simp [Nat.testBit_two_pow, hd, (by omega : ¬ j < i), h1, h2]
  · rw [if_neg (by omega)]
    obtain ⟨m, hmlt, rfl⟩ : ∃ m, m < 2 ^ i ∧ n = 2 ^ i * 1 + m :=
      ⟨n - 2 ^ i, by omega, by omega⟩
    apply Nat.eq_of_testBit_eq
    intro j
    rw [Nat.testBit_xor, Nat.testBit_mul_pow_two_add 1 hmlt]
    have hsub : 2 ^ i * 1 + m - 2 ^ i = m := by omega
    rw [hsub]
    rcases lt_trichotomy j i with hj | hj | hj
    · have hd : decide (i = j) = false := decide_eq_false (by omega)
      simp [Nat.testBit_two_pow, hd, hj]
    · subst hj
      simp [Nat.testBit_two_pow, Nat.testBit_eq_false_of_lt hmlt]
    · have hd : decide (i = j) = false := decide_eq_false (by omega)
      have h2 : Nat.testBit 1 (j - i) = false :=
        Nat.testBit_eq_false_of_lt (Nat.one_lt_two_pow (by omega))
      have h3 : Nat.testBit m j = false :=
        Nat.testBit_eq_false_of_lt
          (lt_of_lt_of_le hmlt (Nat.pow_le_pow_right (by norm_num) (le_of_lt hj)))
      simp [Nat.testBit_two_pow, hd, (by omega : ¬ j < i), h2, h3]

/-- The sign-extension `(raw ^ 0x80000000n) - 0x80000000n` recovers any
value of `[-2^31, 2^31)` from its residue mod `2^32`. -/
theorem signExtend_emod {c : ℤ} (h1 : -2147483648 ≤ c) (h2 : c < 2147483648) :
    Int.xor (c % 4294967296) 2147483648 - 2147483648 = c := by
  have hm0 : 0 ≤ c % 4294967296 := Int.emod_nonneg c (by norm_num)
  have hm1 : c % 4294967296 < 4294967296 := Int.emod_lt_of_pos c (by norm_num)
  obtain ⟨n, hn⟩ : ∃ n : ℕ, c % 4294967296 = (n : ℤ) :=
    ⟨(c % 4294967296).toNat, (Int.toNat_of_nonneg hm0).symm⟩
  rw [hn]
  have hxor : Int.xor ((n : ℕ) : ℤ) (2147483648 : ℤ) = ((n ^^^ 2147483648 : ℕ) : ℤ) := rfl
  rw [hxor]
  have hnlt : n < 4294967296 := by omega
  have hnat := xor_top_bit (i := 31) (n := n) (by norm_num; omega)
  norm_num at hnat
  rcases Nat.lt_or_ge n 2147483648 with hsm | hsm
  · have hite : (n ^^^ 2147483648) = n + 2147483648 := by
      rw [hnat, if_pos hsm]
    rw [hite]
    push_cast
    omega
  · have hite : (n ^^^ 2147483648) = n - 2147483648 := by
      rw [hnat, if_neg (by omega)]
    rw [hite, Nat.cast_sub hsm]
    push_cast
    omega

/-- The food-spawn loop's failure counter never exceeds the cap it is
guarded by. -/
theorem spawnFoodLoop_failures_le (rand : ℕ → ℚ) (food_uuid : ℕ → ℕ) :
    ∀ (fuel : ℕ) (total : ℚ) (failures : ℕ) (s : GameState ℚ) (ri fi : ℕ),
      failures ≤ MAXIMUM_FOOD_SPAWNING_ATTEMPTS →
      (spawnFoodLoop rand food_uuid fuel total failures s ri fi).2.1 ≤
        MAXIMUM_FOOD_SPAWNING_ATTEMPTS := by
  intro fuel
  induction fuel with
  | zero => intro total failures s ri fi hf; exact hf
  | succ n ih =>
    intro total failures s ri fi hf
    rw [spawnFoodLoop]
    split
    · rename_i hguard
      dsimp only
      split
      · exact ih _ _ _ _ _ (by omega)
      · exact ih _ _ _ _ _ hf
    · exact hf

/-- The food-spawn loop never touches the food budget. -/
theorem spawnFoodLoop_food_amount (rand : ℕ → ℚ) (food_uuid : ℕ → ℕ) :
    ∀ (fuel : ℕ) (total : ℚ) (failures : ℕ) (s : GameState ℚ) (ri fi : ℕ),
      (spawnFoodLoop rand food_uuid fuel total failures s ri fi).1.food_amount =
        s.food_amount := by
  intro fuel
  induction fuel with
  | zero => intro total failures s ri fi; rfl
  | succ n ih =>
    intro total failures s ri fi
    rw [spawnFoodLoop]
    split
    · dsimp only
      split
      · exact ih _ _ _ _ _
      · exact ih _ _ _ _ _
    · rfl

/-- One handle's processing preserves the visibility-accumulator
invariant. -/
theorem visitHandle_ok (s : GameState ℚ) (player_uuid : ℕ) (vision_aabb : Box ℚ)
    (acc : VisAcc ℚ) (h : HandleStr)
    (hacc : VisAccOK s player_uuid vision_aabb acc) :
    VisAccOK s player_uuid vision_aabb
      (visitHandle s.players s.world_objects player_uuid vision_aabb acc h) := by
  obtain ⟨hlen, hnd, hmem⟩ := hacc
  cases hph : parse_entity_type_uuid h with
  | player_blob u i =>
    simp only [visitHandle, hph]
    by_cases h1 : u ∈ acc.ob_uuids
    · rw [if_pos h1]
      exact ⟨hlen, hnd, hmem⟩
    · rw [if_neg h1]
      by_cases h2 : u = player_uuid
      · rw [if_pos h2]
        exact ⟨hlen, hnd, hmem⟩
      · rw [if_neg h2]
        cases hop : mapGet s.players u with
        | none => exact ⟨hlen, hnd, hmem⟩
        | some op =>
          dsimp only
          cases hblob : op.blobs.get? i with
          | none => exact ⟨hlen, hnd, hmem⟩
          | some blob =>
            dsimp only
            by_cases hov : overlapsB vision_aabb blob.aabb = true
            · rw [if_pos hov]
              refine ⟨by simp [hlen], ?_, ?_⟩
              · simp [List.nodup_append, hnd, h1]
              · intro pr hpr
                rw [List.zip_append hlen] at hpr
                rcases List.mem_append.mp hpr with hold | hnew
                · exact hmem pr hold
                · have hpr2 : pr = (u, ⟨blob.x, blob.y, blob.r, blob.vx, blob.vy⟩) := by
                    simpa using hnew
                  subst hpr2
                  exact ⟨h2, op, hop, i, blob, hblob, hov, rfl⟩
            · rw [if_neg hov]
              exact ⟨hlen, hnd, hmem⟩
  | world_object u =>
    simp only [visitHandle, hph]
    by_cases h1 : u ∈ acc.wo_uuids
    · rw [if_pos h1]
      exact ⟨hlen, hnd, hmem⟩
    · rw [if_neg h1]
      cases hop : mapGet s.world_objects u with
      | none => exact ⟨hlen, hnd, hmem⟩
      | some wo =>
        dsimp only
        by_cases hov : overlapsB vision_aabb wo.aabb = true
        · rw [if_pos hov]
          exact ⟨hlen, hnd, hmem⟩
        · rw [if_neg hov]
          exact ⟨hlen, hnd, hmem⟩

/-- One cell's sweep preserves the visibility-accumulator invariant. -/
theorem visitCell_ok (s : GameState ℚ) (player_uuid : ℕ) (vision_aabb : Box ℚ)
    (grid : List (ℤ × List HandleStr)) (acc : VisAcc ℚ) (cell_hash : ℤ)
    (hacc : VisAccOK s player_uuid vision_aabb acc) :
    VisAccOK s player_uuid vision_aabb
      (visitCell s.players s.world_objects player_uuid vision_aabb grid acc cell_hash) := by
  unfold visitCell
  exact foldl_preserves (fun a b ha => visitHandle_ok s player_uuid vision_aabb a b ha) _ _ hacc

/-- Every player of the state receives a tick-update entry from
`_broadcastTickUpdate`. -/
theorem broadcast_mem (s : GameState ℚ) (u : ℕ) (p : Player ℚ)
    (h : (u, p) ∈ s.players) :
    (u, ServerMsg.tick_update
      { com_x := p.com_x
        com_y := p.com_y
        self_blobs := p.blobs.map (fun b => ⟨b.x, b.y, b.r⟩)
        zoom_factor := p.zoom_factor
        other_blobs := (visibleEntities s u).other_blobs
        world_objects := (visibleEntities s u).world_objects
        world_radius := (WORLD_RADIUS : ℚ) }) ∈ broadcastTickUpdate s := by
  unfold broadcastTickUpdate
  exact List.mem_map.mpr ⟨(u, p), h, rfl⟩

/-! ## Claim C1 -/

/-- Claim C1: the claim says a spawned player whose client never sends
`update_position` keeps its blob at the spawn point on every tick.
Evaluating the code at the failing input refutes this: `_spawnPlayer`
initialises the stored target to the screen-centre pixel values
(`client_x = CLIENT_WIDTH_PIXELS / 2`, `client_y = CLIENT_HEIGHT_PIXELS
/ 2`) although `_playerUpdatePositionListener` stores world-space offsets,
so the pull target of a blob spawned at the origin is `(960, -540)`, not
its centre of mass, and the first integration step (`dt = 0.01`) moves the
blob strictly away from the spawn point. -/
theorem idle_player_spawn_target_moves_blob :
    0 < (moveBlob Real.sqrt 0 0 ((CLIENT_WIDTH_PIXELS : ℝ) / 2)
      ((CLIENT_HEIGHT_PIXELS : ℝ) / 2) (1 / 100) idleSpawnBlob).x := by
  unfold moveBlob idleSpawnBlob
  simp only [CLIENT_WIDTH_PIXELS, CLIENT_HEIGHT_PIXELS, INITIAL_PLAYER_RADIUS, WORLD_RADIUS, TPS]
  norm_num

/-! ## Claim C2 -/

unseal Rat.mul Rat.add Rat.sub Rat.inv in
/-- Claim C2 counterexample: the placement search samples coordinates with
`(2 * WORLD_RADIUS - radius) * u - (2 * WORLD_RADIUS - radius) / 2`, an
interval wider than the claimed `[-(WORLD_RADIUS - r), WORLD_RADIUS - r]`:
the legal draw `u = 999/1000` spawns a radius-20 player blob at
`x = 988.02 > WORLD_RADIUS - 20`, so the freshly spawned blob violates the
claimed bound. -/
theorem spawn_sample_exceeds_world_bound :
    (0 ≤ (999 / 1000 : ℚ) ∧ (999 / 1000 : ℚ) < 1) ∧
    ((mapGet (spawnPlayer anyLog randC2 spawnQueuedState 0).1.players 7).get!.blobs.get! 0).x
      = 49401 / 50 ∧
    ((mapGet (spawnPlayer anyLog randC2 spawnQueuedState 0).1.players 7).get!.blobs.get! 0).r
      = (INITIAL_PLAYER_RADIUS : ℚ) ∧
    ¬ (|(49401 / 50 : ℚ)| ≤ (WORLD_RADIUS : ℚ) - (INITIAL_PLAYER_RADIUS : ℚ)) := by
  refine ⟨by decide, by decide, by decide, by decide⟩

/-- Claim C2 as amended: the sampled coordinate lies in
`[-(WORLD_RADIUS - r/2), WORLD_RADIUS - r/2]` (only the weaker `r/2`
bound holds at spawn time), and the motion integrator's clamp keeps every
updated blob coordinate within `±(WORLD_RADIUS - r)` whenever
`r ≤ WORLD_RADIUS`, for any interpretation of `Math.sqrt`. -/
theorem sample_and_clamp_bounds {K : Type} [LinearOrderedField K] (radius u : K)
    (h0 : 0 ≤ u) (h1 : u ≤ 1) (hw : radius ≤ (WORLD_RADIUS : K))
    (sqrt : K → K) (com_x com_y client_x client_y dt : K) (blob : Blob K)
    (hbr : blob.r ≤ (WORLD_RADIUS : K)) :
    |sampleCoordinate radius u| ≤ (WORLD_RADIUS : K) - radius / 2 ∧
    |(moveBlob sqrt com_x com_y client_x client_y dt blob).x| ≤ (WORLD_RADIUS : K) - blob.r ∧
    |(moveBlob sqrt com_x com_y client_x client_y dt blob).y| ≤ (WORLD_RADIUS : K) - blob.r := by
  refine ⟨?_, ?_, ?_⟩
  · have hW : (WORLD_RADIUS : K) = 1000 := by norm_num [WORLD_RADIUS]
    rw [hW] at hw ⊢
    unfold sampleCoordinate
    simp only
    rw [abs_le]
    constructor
    · nlinarith [mul_nonneg (by linarith : (0 : K) ≤ 2 * 1000 - radius) h0]
    · nlinarith [mul_le_of_le_one_right (by linarith : (0 : K) ≤ 2 * 1000 - radius) h1]
  · exact abs_clamp_le _ _ _ hbr
  · exact abs_clamp_le _ _ _ hbr

/-- Witness for the amended C2 theorem at concrete inputs. -/
theorem sample_and_clamp_bounds_witness :
    |sampleCoordinate (20 : ℚ) 0| ≤ (WORLD_RADIUS : ℚ) - 20 / 2 ∧
    |(moveBlob anySqrt 0 0 0 0 0 (default : Blob ℚ)).x| ≤
      (WORLD_RADIUS : ℚ) - (default : Blob ℚ).r ∧
    |(moveBlob anySqrt 0 0 0 0 0 (default : Blob ℚ)).y| ≤
      (WORLD_RADIUS : ℚ) - (default : Blob ℚ).r :=
  sample_and_clamp_bounds 20 0 (by decide) (by decide) (by decide) anySqrt 0 0 0 0 0
    (default : Blob ℚ) (by decide)

/-! ## Claim C3 -/

unseal Rat.mul Rat.add Rat.sub Rat.inv in
/-- Claim C3: the claim says spawning establishes the bidirectional
grid-membership invariant.  Evaluating `_spawnPlayer` at the failing input
(the empty world with one queued player, spawn sampled at `(50, 50)`)
refutes this: the new blob records cell `(0, 0)` in its cell set but
`_spawnPlayer` inserts nothing into the grid (contrast `_spawnFood`, which
does), so the state right after the spawn violates the invariant. -/
theorem player_spawn_breaks_grid_invariant :
    gridConsistentB spawnQueuedState = true ∧
    ((mapGet (spawnPlayer anyLog randSpawn50 spawnQueuedState 0).1.players 7).get!.blobs.get!
      0).cells = [hashCell 0 0] ∧
    (spawnPlayer anyLog randSpawn50 spawnQueuedState 0).1.grid = [] ∧
    gridConsistentB (spawnPlayer anyLog randSpawn50 spawnQueuedState 0).1 = false := by
  refine ⟨by decide, by decide, by decide, by decide⟩

/-! ## Claim C4 -/

unseal Rat.mul Rat.add Rat.sub Rat.inv in
/-- Claim C4: the claim says every successful placement — including those
from the empty-cell retargeting path — overlaps no existing entity.
Evaluating `_randomCollisionFreeLocation` at the failing input refutes
this: the first attempt collides with the virus spanning `[100, 180] ×
[10, 90]` while flagging empty cell `(0, 0)`; the retarget attempt then
returns success immediately with no collision check, carrying the
previous attempt's AABB `[88, 102] × [43, 57]` — which overlaps the virus
— and a position `(3, 3)` that does not even match that AABB. -/
theorem retarget_returns_overlapping_aabb :
    randomCollisionFreeLocation 4 3 .food retargetState randRetarget 0 =
      (some ⟨3, 3, [0], ⟨88, 43, 102, 57⟩⟩, 4) ∧
    overlapsB (⟨88, 43, 102, 57⟩ : Box ℚ)
      ((mapGet retargetState.world_objects 1).get!.aabb) = true ∧
    calculate_aabb (3 : ℚ) 3 (4 + (MIN_SEPERATION_DISTANCE : ℚ))
      (4 + (MIN_SEPERATION_DISTANCE : ℚ)) ≠ ⟨88, 43, 102, 57⟩ := by
  refine ⟨by decide, by decide, by decide⟩

/-! ## Claim C5 -/

unseal Rat.mul Rat.add Rat.sub Rat.inv in
/-- Claim C5 counterexample: `_tick` runs `_updatePlayersLocations` before
`_spawnPlayer`, not after as the claimed pipeline order requires.  On a
state with one queued player (and `dt = 0`) the code's tick leaves the new
blob with its inflated placement AABB, while the spec-ordered pipeline
(same embedded phases, spawn before integrate) would refresh it to the
swept AABB — the two producing different results. -/
theorem tick_order_differs_from_spec_order :
    tick anySqrt anyLog randSpawn50 anyFoodUuid 5 0 spawnQueuedState 0 0 ≠
    tickSpecOrder anySqrt anyLog randSpawn50 anyFoodUuid 5 0 spawnQueuedState 0 0 := by
  decide

/-- Claim C5 as amended: player spawning still completes before the tick's
broadcast is assembled (it just runs after motion integration), so every
player present in the post-tick state — freshly spawned players included —
has a `tick_update` message among the tick's published messages. -/
theorem spawned_player_broadcast_same_tick (sqrt log : ℚ → ℚ) (rand : ℕ → ℚ)
    (food_uuid : ℕ → ℕ) (fuel : ℕ) (dt : ℚ) (s : GameState ℚ) (ri fi : ℕ) (u : ℕ)
    (s' : GameState ℚ) (msgs : List (ℕ × ServerMsg ℚ)) (p : Player ℚ)
    (ht : tick sqrt log rand food_uuid fuel dt s ri fi = some (s', msgs))
    (hp : mapGet s'.players u = some p) :
    ∃ d, (u, ServerMsg.tick_update d) ∈ msgs := by
  unfold tick at ht
  dsimp only at ht
  rcases hu : updatePlayersLocations sqrt log dt
      (spawnFood log rand food_uuid fuel s ri fi).1 with _ | s2
  · rw [hu] at ht
    cases ht
  · rw [hu] at ht
    simp only [Option.some.injEq, Prod.mk.injEq] at ht
    obtain ⟨h1, h2⟩ := ht
    subst h1
    subst h2
    exact ⟨_, List.mem_append_right _ (broadcast_mem _ _ _ (mapGet_mem _ _ _ hp))⟩

unseal Rat.mul Rat.add Rat.sub Rat.inv in
/-- Witness for the amended C5 theorem on the concrete one-player tick. -/
theorem spawned_player_broadcast_same_tick_witness :
    ∃ d, (7, ServerMsg.tick_update d) ∈ spawnTickResult.2 :=
  spawned_player_broadcast_same_tick anySqrt anyLog randSpawn50 anyFoodUuid 5 0
    spawnQueuedState 0 0 7 spawnTickResult.1 spawnTickResult.2
    ((mapGet spawnTickResult.1.players 7).get!) (by decide) (by decide)

/-! ## Claim C6 -/

unseal Rat.mul Rat.add Rat.sub Rat.inv in
/-- Claim C6 counterexample: `_spawnPlayer` passes the literal `5` — not
`MAXIMUM_PLAYER_SPAWNING_ATTEMPTS = 10` — to the placement search.  On the
blocked state whose random stream collides for five draws and finds a free
spot at the sixth attempt, the spawn fails and leaves the player queued,
while a search invoked with the constant would succeed. -/
theorem player_spawn_ignores_attempts_constant :
    MAXIMUM_PLAYER_SPAWNING_ATTEMPTS = 10 ∧
    (spawnPlayer anyLog randBlocked blockedState 0).1.players = [] ∧
    (spawnPlayer anyLog randBlocked blockedState 0).1.spawning_players = [7] ∧
    (randomCollisionFreeLocation (INITIAL_PLAYER_RADIUS : ℚ)
      MAXIMUM_PLAYER_SPAWNING_ATTEMPTS .player_blob blockedState randBlocked 0).1 ≠ none := by
  refine ⟨rfl, by decide, by decide, by decide⟩

/-- Claim C6 as amended (the food half of the claim, which the code
satisfies): for every fuel, budget, stream and state, the per-tick
food-spawn pass performs at most `MAXIMUM_FOOD_SPAWNING_ATTEMPTS` failed
placement searches (its failure counter) before stopping. -/
theorem food_spawn_failure_cap (log : ℚ → ℚ) (rand : ℕ → ℚ) (food_uuid : ℕ → ℕ)
    (fuel : ℕ) (s : GameState ℚ) (ri fi : ℕ) :
    (spawnFood log rand food_uuid fuel s ri fi).2.1 ≤ MAXIMUM_FOOD_SPAWNING_ATTEMPTS :=
  spawnFoodLoop_failures_le rand food_uuid fuel _ 0 _ ri fi (Nat.zero_le _)

/-! ## Claim C7 -/

unseal Rat.mul Rat.add Rat.sub Rat.inv in
/-- Claim C7 counterexample: `_visibleEntities` keys `other_blobs` entries
by the bare player uuid, not by the claimed `"uuid:blob_index"` handle
form, and it deduplicates by player uuid, so the observed player's second
blob — although it overlaps the observer's vision AABB — is absent from
the output. -/
theorem visibility_keys_lack_blob_index :
    (visibleEntities visionState 1).other_blobs =
      [(HandleStr.bare 2, ⟨160, 150, 5, 0, 0⟩)] ∧
    HandleStr.bare 2 ≠ stringify_entity_type_uuid (.player_blob 2 0) ∧
    overlapsB (mapGet visionState.players 1).get!.vision_aabb
      (((mapGet visionState.players 2).get!.blobs.get! 1).aabb) = true := by
  refine ⟨by decide, by decide, by decide⟩

/-- Claim C7 as amended: every `other_blobs` entry is keyed by the bare
uuid of a player distinct from the observer, carries the data of one of
that player's blobs whose AABB overlaps the observer's vision AABB (at
most one blob per player, the first visible in scan order), and the
output keys are duplicate-free. -/
theorem visibleEntities_sound (s : GameState ℚ) (player_uuid : ℕ) (player : Player ℚ)
    (hp : mapGet s.players player_uuid = some player) :
    (∀ pr ∈ (visibleEntities s player_uuid).other_blobs,
      ∃ u, pr.1 = HandleStr.bare u ∧
        OtherBlobEntryOK s player_uuid player.vision_aabb u pr.2) ∧
    ((visibleEntities s player_uuid).other_blobs.map Prod.fst).Nodup := by
  have hget : (mapGet s.players player_uuid).get! = player := by rw [hp]; rfl
  have hacc : VisAccOK s player_uuid player.vision_aabb
      ((cellsIntersectingAabb player.vision_aabb).foldl
        (visitCell s.players s.world_objects player_uuid player.vision_aabb s.grid)
        ⟨[], [], [], [], []⟩) :=
    foldl_preserves
      (fun a c ha => visitCell_ok s player_uuid player.vision_aabb s.grid a c ha) _ _
      ⟨rfl, List.nodup_nil, by simp⟩
  obtain ⟨hlen, hnd, hmem⟩ := hacc
  unfold visibleEntities
  rw [hget]
  constructor
  · intro pr hpr
    simp only [List.mem_map] at hpr
    obtain ⟨q, hq, rfl⟩ := hpr
    exact ⟨q.1, rfl, hmem q hq⟩
  · rw [List.map_map]
    have heq : (Prod.fst ∘ fun p => (HandleStr.bare p.1, p.2)) =
        (fun p : ℕ × OtherBlobData ℚ => HandleStr.bare p.1) := rfl
    rw [heq]
    have heq2 : (fun p : ℕ × OtherBlobData ℚ => HandleStr.bare p.1) =
        (HandleStr.bare ∘ Prod.fst) := rfl
    rw [heq2, ← List.map_map]
    rw [List.map_fst_zip _ _ (le_of_eq hlen)]
    exact hnd.map (fun a b hab => HandleStr.bare.inj hab)

unseal Rat.mul Rat.add Rat.sub Rat.inv in
/-- Witness for the amended C7 theorem on the concrete visibility state. -/
theorem visibleEntities_sound_witness :
    ((HandleStr.bare 2, (⟨160, 150, 5, 0, 0⟩ : OtherBlobData ℚ)) ∈
      (visibleEntities visionState 1).other_blobs) ∧
    ∃ u, (HandleStr.bare 2 : HandleStr) = HandleStr.bare u ∧
      OtherBlobEntryOK visionState 1 visionSelf.vision_aabb u
        (⟨160, 150, 5, 0, 0⟩ : OtherBlobData ℚ) :=
  ⟨by decide,
   (visibleEntities_sound visionState 1 visionSelf (by decide)).1
     (HandleStr.bare 2, ⟨160, 150, 5, 0, 0⟩) (by decide)⟩

/-! ## Claim C8 -/

/-- Claim C8: processing an `update_position` message for a known player
sets that player's stored target to `((x - CLIENT_WIDTH_PIXELS / 2) *
zoom_factor, (y - CLIENT_HEIGHT_PIXELS / 2) * zoom_factor)` and changes
nothing else (other players, grid, world objects, spawn queue and food
budget are untouched), while a message whose uuid matches no player leaves
the state unchanged. -/
theorem update_position_applied_or_discarded {K : Type} [LinearOrderedField K]
    (s : GameState K) (uuid : ℕ) (x y : K) :
    (mapGet s.players uuid = none → playerUpdatePosition s uuid x y = s) ∧
    (∀ p, mapGet s.players uuid = some p →
      (playerUpdatePosition s uuid x y).grid = s.grid ∧
      (playerUpdatePosition s uuid x y).world_objects = s.world_objects ∧
      (playerUpdatePosition s uuid x y).spawning_players = s.spawning_players ∧
      (playerUpdatePosition s uuid x y).food_amount = s.food_amount ∧
      mapGet (playerUpdatePosition s uuid x y).players uuid =
        some { p with
          client_x := (x - (CLIENT_WIDTH_PIXELS : K) / 2) * p.zoom_factor
          client_y := (y - (CLIENT_HEIGHT_PIXELS : K) / 2) * p.zoom_factor } ∧
      (∀ other, other ≠ uuid →
        mapGet (playerUpdatePosition s uuid x y).players other = mapGet s.players other)) := by
  constructor
  · intro h
    simp [playerUpdatePosition, h]
  · intro p hp
    unfold playerUpdatePosition
    rw [hp]
    exact ⟨rfl, rfl, rfl, rfl, mapGet_mapSet_self _ _ _,
      fun other hother => mapGet_mapSet_ne _ _ _ _ hother⟩

unseal Rat.mul Rat.add Rat.sub Rat.inv in
/-- Witness for C8: both the unknown-uuid and known-uuid behaviour at a
concrete state. -/
theorem update_position_applied_or_discarded_witness :
    playerUpdatePosition updatePosState 2 5 5 = updatePosState ∧
    mapGet (playerUpdatePosition updatePosState 1 1000 600).players 1 =
      some { updatePosPlayer with
        client_x := (1000 - (CLIENT_WIDTH_PIXELS : ℚ) / 2) * updatePosPlayer.zoom_factor
        client_y := (600 - (CLIENT_HEIGHT_PIXELS : ℚ) / 2) * updatePosPlayer.zoom_factor } :=
  ⟨(update_position_applied_or_discarded updatePosState 2 5 5).1 (by decide),
   ((update_position_applied_or_discarded updatePosState 1 1000 600).2 updatePosPlayer
     (by decide)).2.2.2.2.1⟩

/-! ## Claim C9 -/

/-- Claim C9: the food budget starts at 0, every successfully spawned
player adds exactly 100, and the per-tick conversion replaces the budget
with `food_amount - (food_amount - log (food_amount + 1))` =
`log (food_amount + 1)`, which is nonnegative whenever the budget was —
so the budget never becomes negative. -/
theorem food_amount_nonneg_dynamics :
    (initialGameState (K := ℚ)).food_amount = 0 ∧
    (∀ f : ℝ, 0 ≤ f → 0 ≤ spawnFoodBudgetAfter Real.log f) ∧
    (∀ (log : ℚ → ℚ) (rand : ℕ → ℚ) (food_uuid : ℕ → ℕ) (fuel : ℕ) (s : GameState ℚ)
      (ri fi : ℕ),
      (spawnFood log rand food_uuid fuel s ri fi).1.food_amount =
        spawnFoodBudgetAfter log s.food_amount) ∧
    (∀ (log : ℚ → ℚ) (rand : ℕ → ℚ) (s : GameState ℚ) (u : ℕ) (ri ri' : ℕ)
      (loc : LocationInfo ℚ),
      s.spawning_players = [u] →
      randomCollisionFreeLocation (INITIAL_PLAYER_RADIUS : ℚ) 5 .player_blob s rand ri =
        (some loc, ri') →
      (spawnPlayer log rand s ri).1.food_amount = s.food_amount + 100) := by
  refine ⟨rfl, ?_, ?_, ?_⟩
  · intro f hf
    unfold spawnFoodBudgetAfter
    have hlog : f - (f - Real.log (f + 1)) = Real.log (f + 1) := by ring
    rw [hlog]
    exact Real.log_nonneg (by linarith)
  · intro log rand food_uuid fuel s ri fi
    unfold spawnFood
    rw [spawnFoodLoop_food_amount]
    rfl
  · intro log rand s u ri ri' loc hqueue hrc
    unfold spawnPlayer
    rw [hqueue]
    rw [spawnPlayerLoop, hrc]
    rfl

unseal Rat.mul Rat.add Rat.sub Rat.inv in
/-- Witness for C9 at concrete inputs: budget 0 stays nonnegative, the
conversion equation holds on the concrete state, and the concrete
successful spawn adds exactly 100. -/
theorem food_amount_nonneg_dynamics_witness :
    0 ≤ spawnFoodBudgetAfter Real.log 0 ∧
    (spawnFood anyLog randSpawn50 anyFoodUuid 5 spawnQueuedState 0 0).1.food_amount =
      spawnFoodBudgetAfter anyLog spawnQueuedState.food_amount ∧
    (spawnPlayer anyLog randSpawn50 spawnQueuedState 0).1.food_amount =
      spawnQueuedState.food_amount + 100 :=
  ⟨food_amount_nonneg_dynamics.2.1 0 le_rfl,
   food_amount_nonneg_dynamics.2.2.1 anyLog randSpawn50 anyFoodUuid 5 spawnQueuedState 0 0,
   food_amount_nonneg_dynamics.2.2.2 anyLog randSpawn50 spawnQueuedState 7 0 2
     ⟨50, 50, [hashCell 0 0], ⟨27, 27, 73, 73⟩⟩ rfl (by decide)⟩

/-! ## Claim C10 -/

/-- Claim C10: for all cell coordinates in `[-2^31, 2^31)` on both axes,
`_unhashCell` recovers exactly the pair `_hashCell` was applied to — the
truncated 32-bit halves are disjoint in the 64-bit key and the
xor-subtract trick sign-extends each half. -/
theorem hashCell_roundTrip (cx cy : ℤ)
    (hx1 : -2147483648 ≤ cx) (hx2 : cx < 2147483648)
    (hy1 : -2147483648 ≤ cy) (hy2 : cy < 2147483648) :
    unhashCell (hashCell cx cy) = (cx, cy) := by
  have hX0 : 0 ≤ cx % 4294967296 := Int.emod_nonneg cx (by norm_num)
  have hX1 : cx % 4294967296 < 4294967296 := Int.emod_lt_of_pos cx (by norm_num)
  have hY0 : 0 ≤ cy % 4294967296 := Int.emod_nonneg cy (by norm_num)
  have hY1 : cy % 4294967296 < 4294967296 := Int.emod_lt_of_pos cy (by norm_num)
  unfold unhashCell hashCell
  have hdiv : ((cx % 4294967296) * 4294967296 + cy % 4294967296) / 4294967296 =
      cx % 4294967296 := by omega
  have hmod : ((cx % 4294967296) * 4294967296 + cy % 4294967296) % 4294967296 =
      cy % 4294967296 := by omega
  simp only [hdiv, hmod]
  have hxx : (cx % 4294967296) % 4294967296 = cx % 4294967296 := by omega
  rw [hxx, signExtend_emod hx1 hx2, signExtend_emod hy1 hy2]

/-- Witness for C10: the round trip at the concrete cell `(-5, 7)`. -/
theorem hashCell_roundTrip_witness :
    (-2147483648 ≤ (-5 : ℤ) ∧ (-5 : ℤ) < 2147483648) ∧
    unhashCell (hashCell (-5) 7) = (-5, 7) :=
  ⟨⟨by decide, by decide⟩,
   hashCell_roundTrip (-5) 7 (by decide) (by decide) (by decide) (by decide)⟩

end Petri
